import Mathlib

/-!
Verification of the Revenue-Leak-Detective workers against its design notes.

The repository contains two Python modules:
  * `src/workers/run.py` (embedded here in namespace `Workers`): a bare
    single-node state graph whose node prepends a greeting to the
    `message` field of the state record;
  * `src/workers/src/agent/run.py` (embedded in namespace `Agent`): the same
    node wrapped in try/except error handling, a `create_workflow` builder,
    a `run_agent` function with a dry-run mode, and a CLI entry point.

Python records are embedded as an optional `message` field holding either a
text value or a non-text value; exceptions become an explicit error type
carrying an optional cause (the `raise ... from e` chain); logging and
printing become explicit event lists.  The external graph library
(langgraph) is embedded by its documented contract: node registration, edge
wiring between a start and an end marker, a validity check at compile time,
and an `invoke` that walks the edges applying nodes to the state.
-/

/-- A Python value stored in the `message` field: either text (`str`) or a
value of some other type, identified by its type name (used in the
`TypeError` message Python produces on `str + non-str`). -/
inductive PyVal where
  | str (s : String)
  | other (typeName : String)
deriving DecidableEq, Repr

/-- A Python dict restricted to the single key the program uses: `message`
is `some v` when the key is present and `none` when it is absent. -/
structure PyDict where
  message : Option PyVal
deriving DecidableEq, Repr

/-- The Python exceptions the program can raise or wrap. -/
inductive Exc where
  | keyError (key : String)
  | typeError (msg : String)
  | runtimeError (msg : String)
  | valueError (msg : String)
  | graphRecursionError
deriving DecidableEq, Repr

/-- `str(e)` for the exceptions above, as Python renders them when they are
interpolated into a log or error message.  `str` of a `KeyError` is the
repr of the key, i.e. the key in single quotes. -/
def excStr : Exc → String
  | .keyError k => "\x27" ++ k ++ "\x27"
  | .typeError m => m
  | .runtimeError m => m
  | .valueError m => m
  | .graphRecursionError => "Recursion limit of 25 reached"

/-- A raised exception together with its `__cause__` (set by
`raise ... from e`); `none` when the exception was raised bare. -/
structure PyError where
  exc : Exc
  cause : Option Exc
deriving DecidableEq, Repr

/-- Severity of a log record. -/
inductive LogLevel where
  | info
  | error
deriving DecidableEq, Repr

/-- One log record: its level and its formatted message text (the
timestamp/name decoration added by the formatter is not modelled). -/
structure LogEntry where
  level : LogLevel
  text : String
deriving DecidableEq, Repr

deriving instance DecidableEq for Except

/-- Result of running a piece of the program: the log records it emitted,
in order, and either a value or the exception that propagated out. -/
structure Eff (α : Type) where
  logs : List LogEntry
  result : Except PyError α
deriving DecidableEq, Repr

/-- The greeting constant both node variants prepend. -/
def greeting : String := "Welcome to my agent! "

/-- `"Welcome to my agent! " + v` as Python evaluates it: succeeds on text,
raises `TypeError` when the right operand is not text. -/
def concatMessage : PyVal → Except Exc String
  | .str s => .ok (greeting ++ s)
  | .other t => .error (.typeError ("can only concatenate str (not \"" ++ t ++ "\") to str"))

/-- `state["message"]`: the dict lookup, raising `KeyError` when absent. -/
def readMessage (d : PyDict) : Except Exc PyVal :=
  match d.message with
  | some v => .ok v
  | none => .error (.keyError "message")

/-- The body `"Welcome to my agent! " + state["message"]`: the lookup
followed by the concatenation, propagating whichever exception occurs. -/
def tryConcat (d : PyDict) : Except Exc String :=
  match readMessage d with
  | .ok v => concatMessage v
  | .error e => .error e

/-- Python repr of the one-key dict, as `print` and `%s` render it. -/
def reprDict (d : PyDict) : String :=
  match d.message with
  | some (.str s) => "\x7b\x27message\x27: \x27" ++ s ++ "\x27\x7d"
  | some (.other t) => "\x7b\x27message\x27: <" ++ t ++ ">\x7d"
  | none => "\x7b\x7d"

namespace Workers

/-- `sample_node` from `src/workers/run.py`: returns the new dict, with no
try/except, so any exception from the body propagates bare. -/
def sample_node (state : PyDict) : Eff PyDict :=
  match tryConcat state with
  | .ok s => ⟨[], .ok ⟨some (.str s)⟩⟩
  | .error e => ⟨[], .error ⟨e, none⟩⟩

end Workers

namespace Agent

/-- `sample_node` from `src/workers/src/agent/run.py`: the same body inside
try/except, which logs the exception at error level and re-raises it as a
`RuntimeError` with the original exception as cause. -/
def sample_node (state : PyDict) : Eff PyDict :=
  match tryConcat state with
  | .ok s => ⟨[], .ok ⟨some (.str s)⟩⟩
  | .error e =>
      ⟨[⟨.error, "Error processing state in sample_node: " ++ excStr e⟩],
       .error ⟨.runtimeError ("Failed to process state in sample_node: " ++ excStr e),
               some e⟩⟩

end Agent

/-! ### The graph library

`langgraph.graph.StateGraph` is external to the repository; it is embedded
by the black-box contract the design notes describe: node registration,
designated start and end markers, edge wiring, a compile step that
validates the definition, and an invocable compiled object that walks the
edges from the start marker applying each node to the state. -/

/-- The start marker (`langgraph.graph.START`). -/
def START : String := "__start__"

/-- The end marker (`langgraph.graph.END`). -/
def END : String := "__end__"

/-- A state graph under construction: registered nodes and wired edges. -/
structure StateGraph where
  nodes : List (String × (PyDict → Eff PyDict))
  edges : List (String × String)

/-- `workflow.add_node(name, f)`. -/
def add_node (g : StateGraph) (name : String) (f : PyDict → Eff PyDict) : StateGraph :=
  { g with nodes := g.nodes ++ [(name, f)] }

/-- `workflow.add_edge(a, b)`. -/
def add_edge (g : StateGraph) (a b : String) : StateGraph :=
  { g with edges := g.edges ++ [(a, b)] }

/-- Names of the registered nodes. -/
def nodeNames (g : StateGraph) : List String := g.nodes.map Prod.fst

/-- The validity check the library performs at compile time: there must be
an entrypoint (an edge out of the start marker) and every edge endpoint
must be the start marker, the end marker, or a registered node. -/
def validGraph (g : StateGraph) : Bool :=
  g.edges.any (fun e => e.1 == START) &&
  g.edges.all (fun e =>
    (e.1 == START || (nodeNames g).contains e.1) &&
    (e.2 == END || (nodeNames g).contains e.2))

/-- A compiled, invocable graph. -/
structure CompiledGraph where
  graph : StateGraph

/-- `workflow.compile()` as the library implements it: validate the
definition and either return the compiled graph or raise. -/
def libCompile (g : StateGraph) : Except Exc CompiledGraph :=
  if validGraph g then .ok ⟨g⟩ else .error (.valueError "Graph must have an entrypoint")

/-- Merging a node's returned update dict into the current state: a present
key overwrites, an absent key leaves the current value. -/
def mergeState (s upd : PyDict) : PyDict :=
  match upd.message with
  | some v => ⟨some v⟩
  | none => s

/-- Execution of a compiled graph from a given node: apply the node, merge
its update, follow the outgoing edge, stop at the end marker.  `fuel`
models the library's recursion limit (default 25). -/
def runFrom (g : StateGraph) : Nat → String → PyDict → Eff PyDict
  | 0, _, _ => ⟨[], .error ⟨.graphRecursionError, none⟩⟩
  | Nat.succ fuel, cur, s =>
      match g.nodes.find? (fun p => p.1 == cur) with
      | none => ⟨[], .error ⟨.valueError ("unknown node: " ++ cur), none⟩⟩
      | some node =>
          match node.2 s with
          | ⟨logs, .error e⟩ => ⟨logs, .error e⟩
          | ⟨logs, .ok upd⟩ =>
              let s2 := mergeState s upd
              match g.edges.find? (fun p => p.1 == cur) with
              | none => ⟨logs, .ok s2⟩
              | some edge =>
                  if edge.2 == END then ⟨logs, .ok s2⟩
                  else
                    let r := runFrom g fuel edge.2 s2
                    ⟨logs ++ r.logs, r.result⟩

/-- `compiled.invoke(state)`: enter at the start marker's outgoing edge and
run with the default recursion limit. -/
def invoke (cg : CompiledGraph) (s : PyDict) : Eff PyDict :=
  match cg.graph.edges.find? (fun p => p.1 == START) with
  | none => ⟨[], .error ⟨.valueError "Graph has no entrypoint", none⟩⟩
  | some edge =>
      if edge.2 == END then ⟨[], .ok s⟩
      else runFrom cg.graph 25 edge.2 s

namespace Agent

/-- The graph definition built inside `create_workflow`: one node bound to
`sample_node`, an edge from the start marker to it, and an edge from it to
the end marker. -/
def agentWorkflow : StateGraph :=
  add_edge (add_edge (add_node ⟨[], []⟩ "sample" sample_node) START "sample") "sample" END

/-- The compiled agent graph (what `workflow.compile()` returns here). -/
def compiledAgentGraph : CompiledGraph := ⟨agentWorkflow⟩

/-- `create_workflow`, parametrised by the library's compile step: the
whole construction sits in a try/except that logs any failure at error
level and re-raises it as a `RuntimeError` with the original cause. -/
def create_workflow_with (compile : StateGraph → Except Exc CompiledGraph) :
    Eff CompiledGraph :=
  match compile agentWorkflow with
  | .ok g => ⟨[], .ok g⟩
  | .error e =>
      ⟨[⟨.error, "Failed to create workflow: " ++ excStr e⟩],
       .error ⟨.runtimeError ("Workflow creation failed: " ++ excStr e), some e⟩⟩

/-- `create_workflow` with the actual library compile step. -/
def create_workflow : Eff CompiledGraph := create_workflow_with libCompile

/-- `run_agent(dry_run, message)`, parametrised by the library compile
step.  Dry-run logs the would-be transition at info level and returns the
record computed by the same greeting rule, without touching the graph;
otherwise it builds the workflow and invokes it on the initial record. -/
def run_agent_with (compile : StateGraph → Except Exc CompiledGraph)
    (dry_run : Bool) (message : String) : Eff PyDict :=
  let initial : PyDict := ⟨some (.str message)⟩
  if dry_run then
    let out : PyDict := ⟨some (.str (greeting ++ message))⟩
    ⟨[⟨.info, "state transition: " ++ reprDict initial ++ " -> " ++ reprDict out⟩],
     .ok out⟩
  else
    match create_workflow_with compile with
    | ⟨logs, .error e⟩ => ⟨logs, .error e⟩
    | ⟨logs, .ok g⟩ =>
        let r := invoke g initial
        ⟨logs ++ r.logs, r.result⟩

/-- `run_agent` with the actual library compile step; the defaults
(`dry_run=False`, `message="Mehrnoosh"`) live in the CLI parser. -/
def run_agent (dry_run : Bool) (message : String) : Eff PyDict :=
  run_agent_with libCompile dry_run message

end Agent

/-! ### The CLI entry point

Everything `main` emits goes to the standard output stream: `print` writes
there, and the logging configuration installs a `StreamHandler` explicitly
bound to the standard output stream (`logging.basicConfig(...,
handlers=[logging.StreamHandler(sys.stdout)])`). -/

/-- One line of process output: a formatted log record or a `print` call.
Both kinds are written to standard output (see the module docstring
above). -/
inductive OutEvent where
  | log (e : LogEntry)
  | print (s : String)
deriving DecidableEq, Repr

/-- The parsed command-line arguments. -/
structure Args where
  dry_run : Bool
  message : String
deriving DecidableEq, Repr

namespace Agent

/-- The argparse loop over the recognised options, starting from the
declared defaults; `none` models argparse rejecting the command line
(which exits the process with status 2). -/
def parseArgsFrom : List String → Args → Option Args
  | [], a => some a
  | "--dry-run" :: rest, a => parseArgsFrom rest { a with dry_run := true }
  | "--message" :: v :: rest, a => parseArgsFrom rest { a with message := v }
  | _, _ => none

/-- `parser.parse_args(argv)` with the defaults `dry_run=False` and
`message="Mehrnoosh"`. -/
def parseArgs (argv : List String) : Option Args :=
  parseArgsFrom argv ⟨false, "Mehrnoosh"⟩

/-- The body of `main` after argument parsing, parametrised by the library
compile step: run the agent, print the result unless dry-run, and turn any
exception into an error log followed by exit status 1.  Returns the
ordered output events and the process exit status. -/
def main_with (compile : StateGraph → Except Exc CompiledGraph)
    (dry_run : Bool) (message : String) : List OutEvent × Nat :=
  match run_agent_with compile dry_run message with
  | ⟨logs, .ok d⟩ =>
      if dry_run then (logs.map OutEvent.log, 0)
      else (logs.map OutEvent.log ++ [OutEvent.print (reprDict d)], 0)
  | ⟨logs, .error e⟩ =>
      (logs.map OutEvent.log ++
         [OutEvent.log ⟨.error, "Failed to run agent: " ++ excStr e.exc⟩], 1)

/-- `main()`: parse the command line (exit status 2 on a parse error, as
argparse does) and run the body with the actual library compile step. -/
def main (argv : List String) : List OutEvent × Nat :=
  match parseArgs argv with
  | some args => main_with libCompile args.dry_run args.message
  | none => ([], 2)

end Agent

namespace Workers

/-- The module-level graph definition in `src/workers/run.py`, built with
the unwrapped `sample_node`. -/
def workflow : StateGraph :=
  add_edge (add_edge (add_node ⟨[], []⟩ "sample" sample_node) START "sample") "sample" END

/-- `graph = workflow.compile()` at module load. -/
def graphE : Except Exc CompiledGraph := libCompile workflow

end Workers

/-! ### Heap model for the non-mutation property

Python dicts are mutable and passed by reference, so "the transformer
never mutates its input" is a statement about object identity.  A heap is
a list of records; an address is an index into it.  The node body
`return \x7b"message": "Welcome to my agent! " + state["message"]\x7d`
reads the record at the input address and allocates a fresh record at a
fresh address, leaving every existing cell untouched. -/

/-- A heap of records; addresses are indices. -/
abbrev Heap : Type := List PyDict

/-- The node body applied to the record `d`: allocate the result as a
fresh record (at address `h.length`) on success, and leave the heap
unchanged on failure. -/
def sample_node_at (h : Heap) (d : PyDict) : Heap × Eff Nat :=
  match tryConcat d with
  | .ok s => (h ++ [⟨some (.str s)⟩], ⟨[], .ok h.length⟩)
  | .error e =>
      (h, ⟨[⟨.error, "Error processing state in sample_node: " ++ excStr e⟩],
           .error ⟨.runtimeError ("Failed to process state in sample_node: " ++ excStr e),
                   some e⟩⟩)

/-- `sample_node` acting on a heap: read the record at address `a` and run
the node body on it.  An invalid address cannot arise in the source
(callers always pass an existing dict); it is mapped to an error for
totality. -/
def sample_node_heap (h : Heap) (a : Nat) : Heap × Eff Nat :=
  match h[a]? with
  | none => (h, ⟨[], .error ⟨.valueError "invalid address", none⟩⟩)
  | some d => sample_node_at h d

/-- A compile step that always fails, standing in for the graph library
rejecting a definition; used to exercise the construction-failure paths. -/
def alwaysFailCompile : StateGraph → Except Exc CompiledGraph :=
  fun _ => .error (.valueError "internal library failure")

/-- The output events of a run of `main`.  All of them are written to the
standard output stream: `print` writes there, and the log handler is a
`StreamHandler` explicitly constructed on `sys.stdout`. -/
def stdoutOutput (r : List OutEvent × Nat) : List OutEvent := r.1

/-! ### Claims -/

/-- Claim C1: for every text `m`, the Message Transformer maps a record
whose `message` field is `m` to a record whose `message` field is
`"Welcome to my agent! " ++ m`, emitting no log entry; this holds for both
variants (`src/workers/src/agent/run.py` and `src/workers/run.py`). -/
theorem sample_node_greets (m : String) :
    Agent.sample_node ⟨some (PyVal.str m)⟩ =
      ⟨[], .ok ⟨some (PyVal.str ("Welcome to my agent! " ++ m))⟩⟩ ∧
    Workers.sample_node ⟨some (PyVal.str m)⟩ =
      ⟨[], .ok ⟨some (PyVal.str ("Welcome to my agent! " ++ m))⟩⟩ :=
  ⟨rfl, rfl⟩

/-- Claim C2: the compiled one-node workflow graph, invoked on a record
with text message `m`, produces exactly what the Message Transformer
produces when called directly once; moreover compilation of both graph
definitions succeeds. -/
theorem workflow_invoke_eq_transform (m : String) :
    Agent.create_workflow = ⟨[], .ok Agent.compiledAgentGraph⟩ ∧
    invoke Agent.compiledAgentGraph ⟨some (PyVal.str m)⟩ =
      Agent.sample_node ⟨some (PyVal.str m)⟩ ∧
    Workers.graphE = .ok ⟨Workers.workflow⟩ ∧
    invoke ⟨Workers.workflow⟩ ⟨some (PyVal.str m)⟩ =
      Workers.sample_node ⟨some (PyVal.str m)⟩ :=
  ⟨rfl, rfl, rfl, rfl⟩

/-- Claim C6: `main` with no command-line flags parses the defaults
(`dry_run = false`, `message = "Mehrnoosh"`), prints exactly the record
whose `message` is `"Welcome to my agent! Mehrnoosh"`, and exits with
status 0. -/
theorem main_defaults :
    Agent.parseArgs [] = some ⟨false, "Mehrnoosh"⟩ ∧
    Agent.main [] =
      ([OutEvent.print "\x7b\x27message\x27: \x27Welcome to my agent! Mehrnoosh\x27\x7d"], 0) :=
  ⟨rfl, rfl⟩

/-- Claim C9: for every message `m`, `run_agent` in dry-run mode returns
the same result record as `run_agent` in normal mode, namely the record
computed by the greeting rule, and the dry-run branch is independent of
the graph library (it neither constructs nor invokes the workflow). -/
theorem dry_run_matches_execution (m : String) :
    (Agent.run_agent true m).result = (Agent.run_agent false m).result ∧
    (Agent.run_agent true m).result =
      .ok ⟨some (PyVal.str ("Welcome to my agent! " ++ m))⟩ ∧
    ∀ compile, Agent.run_agent_with compile true m = Agent.run_agent true m :=
  ⟨rfl, rfl, fun _ => rfl⟩

/-- Claim C10: the top-level variant of the transformer
(`src/workers/run.py`) performs no error wrapping: on a record lacking the
`message` field it propagates the bare `KeyError` with no cause attached
and emits no log entry, whereas the agent variant logs one error entry and
raises a wrapping `RuntimeError` whose cause is that `KeyError`. -/
theorem workers_sample_node_raw (r : PyDict) (h : r.message = none) :
    Workers.sample_node r = ⟨[], .error ⟨Exc.keyError "message", none⟩⟩ ∧
    (Agent.sample_node r).logs.length = 1 ∧
    (Agent.sample_node r).result =
      .error ⟨Exc.runtimeError ("Failed to process state in sample_node: " ++
                excStr (Exc.keyError "message")),
              some (Exc.keyError "message")⟩ := by
  obtain ⟨msg⟩ := r
  cases h
  exact ⟨rfl, rfl, rfl⟩

/-- Concrete instance of `workers_sample_node_raw` at the empty record. -/
theorem workers_sample_node_raw_witness :
    (PyDict.mk none).message = none ∧
    Workers.sample_node ⟨none⟩ = ⟨[], .error ⟨Exc.keyError "message", none⟩⟩ :=
  ⟨rfl, (workers_sample_node_raw ⟨none⟩ rfl).1⟩

/-- Claim C3: on a record that lacks the `message` field, or whose
`message` field is not text, the agent transformer logs one error-level
entry and raises a wrapping `RuntimeError` (the spec's `ProcessingError`)
whose cause is the original lookup (`KeyError`) or type (`TypeError`)
failure. -/
theorem sample_node_error_wraps (r : PyDict)
    (h : r.message = none ∨ ∃ t, r.message = some (PyVal.other t)) :
    ∃ e, tryConcat r = .error e ∧
      Agent.sample_node r =
        ⟨[⟨LogLevel.error, "Error processing state in sample_node: " ++ excStr e⟩],
         .error ⟨Exc.runtimeError ("Failed to process state in sample_node: " ++ excStr e),
                 some e⟩⟩ ∧
      (r.message = none → e = Exc.keyError "message") ∧
      (∀ t, r.message = some (PyVal.other t) →
        e = Exc.typeError ("can only concatenate str (not \"" ++ t ++ "\") to str")) := by
  obtain ⟨msg⟩ := r
  rcases h with h | ⟨t, h⟩ <;> subst h
  · refine ⟨.keyError "message", rfl, rfl, fun _ => rfl, ?_⟩
    intro t ht
    exact Option.noConfusion ht
  · refine ⟨.typeError ("can only concatenate str (not \"" ++ t ++ "\") to str"),
      rfl, rfl, ?_, ?_⟩
    · intro hn
      exact Option.noConfusion hn
    · intro t' ht'
      simp only [Option.some.injEq, PyVal.other.injEq] at ht'
      subst ht'
      rfl

/-- Concrete instance of `sample_node_error_wraps` at the empty record. -/
theorem sample_node_error_wraps_witness :
    ((PyDict.mk none).message = none ∨ ∃ t, (PyDict.mk none).message = some (PyVal.other t)) ∧
    ∃ e, tryConcat ⟨none⟩ = .error e ∧
      Agent.sample_node ⟨none⟩ =
        ⟨[⟨LogLevel.error, "Error processing state in sample_node: " ++ excStr e⟩],
         .error ⟨Exc.runtimeError ("Failed to process state in sample_node: " ++ excStr e),
                 some e⟩⟩ ∧
      ((PyDict.mk none).message = none → e = Exc.keyError "message") ∧
      (∀ t, (PyDict.mk none).message = some (PyVal.other t) →
        e = Exc.typeError ("can only concatenate str (not \"" ++ t ++ "\") to str")) :=
  ⟨Or.inl rfl, sample_node_error_wraps ⟨none⟩ (Or.inl rfl)⟩

/-- Claim C5 (heap model): the transformer never mutates its input record.
If address `a` holds record `d` before the call, it still holds `d`
afterwards, and on success the returned address is a fresh one, distinct
from `a`, holding exactly the record the pure transformer computes from
`d`. -/
theorem sample_node_no_mutation (h : Heap) (a : Nat) (d : PyDict)
    (hd : h[a]? = some d) :
    ((sample_node_heap h a).1)[a]? = some d ∧
    ∀ b, (sample_node_heap h a).2.result = Except.ok b →
      b ≠ a ∧ ∃ v, ((sample_node_heap h a).1)[b]? = some v ∧
        (Agent.sample_node d).result = Except.ok v := by
  rcases List.getElem?_eq_some.1 hd with ⟨ha, -⟩
  have h1 : sample_node_heap h a = sample_node_at h d := by
    unfold sample_node_heap
    rw [hd]
  cases htc : tryConcat d with
  | ok s =>
      have h2 : sample_node_at h d = (h ++ [⟨some (.str s)⟩], ⟨[], .ok h.length⟩) := by
        unfold sample_node_at
        rw [htc]
      rw [h1, h2]
      constructor
      · rw [List.getElem?_append, if_pos ha]
        exact hd
      · intro b hb
        simp only [Except.ok.injEq] at hb
        subst hb
        refine ⟨by omega, ⟨some (.str s)⟩, List.getElem?_concat_length h _, ?_⟩
        unfold Agent.sample_node
        rw [htc]
  | error e =>
      have h2 : sample_node_at h d =
          (h, ⟨[⟨.error, "Error processing state in sample_node: " ++ excStr e⟩],
               .error ⟨.runtimeError ("Failed to process state in sample_node: " ++ excStr e),
                       some e⟩⟩) := by
        unfold sample_node_at
        rw [htc]
      rw [h1, h2]
      exact ⟨hd, fun b hb => by cases hb⟩

/-- Concrete instance of `sample_node_no_mutation` on a one-cell heap. -/
theorem sample_node_no_mutation_witness :
    ([(⟨some (PyVal.str "hi")⟩ : PyDict)][0]? = some ⟨some (PyVal.str "hi")⟩) ∧
    ((sample_node_heap [⟨some (PyVal.str "hi")⟩] 0).1)[0]? = some ⟨some (PyVal.str "hi")⟩ :=
  ⟨rfl, (sample_node_no_mutation [⟨some (PyVal.str "hi")⟩] 0 ⟨some (PyVal.str "hi")⟩ rfl).1⟩

/-- Claim C4, counterexample: a dry-run invocation does write to standard
output, because the logging configuration installs its handler on the
standard output stream; with `--message X` the output event list is not
empty. -/
theorem dry_run_stdout_nonempty :
    stdoutOutput (Agent.main ["--dry-run", "--message", "X"]) ≠ [] := by
  decide

/-- Claim C4 as amended: a dry-run invocation with `--message X` prints no
result record; it computes the would-be record by the greeting rule and
emits exactly one info-level log line describing the transition — and that
log line is the only thing written to standard output, because the log
handler is bound to the standard output stream. -/
theorem dry_run_logs_transition (X : String) :
    stdoutOutput (Agent.main ["--dry-run", "--message", X]) =
      [OutEvent.log ⟨LogLevel.info,
        "state transition: " ++ reprDict ⟨some (PyVal.str X)⟩ ++ " -> " ++
          reprDict ⟨some (PyVal.str (greeting ++ X))⟩⟩] ∧
    (Agent.main ["--dry-run", "--message", X]).2 = 0 :=
  ⟨rfl, rfl⟩

/-- Claim C8: if the library compile step rejects the graph definition,
`create_workflow` logs the failure at error level and raises a wrapping
`RuntimeError` (the spec's `WorkflowConstructionError`) carrying the
original cause; with the actual library the construction succeeds and
returns the compiled graph. -/
theorem create_workflow_error_wraps (compile : StateGraph → Except Exc CompiledGraph)
    (e : Exc) (h : compile Agent.agentWorkflow = .error e) :
    Agent.create_workflow_with compile =
      ⟨[⟨LogLevel.error, "Failed to create workflow: " ++ excStr e⟩],
       .error ⟨Exc.runtimeError ("Workflow creation failed: " ++ excStr e), some e⟩⟩ ∧
    Agent.create_workflow = ⟨[], .ok Agent.compiledAgentGraph⟩ := by
  constructor
  · unfold Agent.create_workflow_with
    rw [h]
  · rfl

/-- Concrete instance of `create_workflow_error_wraps` with a compile step
that always fails. -/
theorem create_workflow_error_wraps_witness :
    alwaysFailCompile Agent.agentWorkflow =
      .error (Exc.valueError "internal library failure") ∧
    Agent.create_workflow_with alwaysFailCompile =
      ⟨[⟨LogLevel.error,
          "Failed to create workflow: " ++ excStr (Exc.valueError "internal library failure")⟩],
       .error ⟨Exc.runtimeError
                 ("Workflow creation failed: " ++ excStr (Exc.valueError "internal library failure")),
               some (Exc.valueError "internal library failure")⟩⟩ :=
  ⟨rfl, (create_workflow_error_wraps alwaysFailCompile _ rfl).1⟩

/-- Claim C7: the CLI body exits with status 0 on success (both modes);
if construction fails it logs the failure and exits with status 1; if
invocation of a compiled graph fails it logs the failure and exits with
status 1; and the dry-run path is independent of the compile step, so it
never reaches the failure path. -/
theorem main_exit_codes (compile : StateGraph → Except Exc CompiledGraph) (m : String) :
    (Agent.main_with libCompile false m).2 = 0 ∧
    ((Agent.main_with compile true m).2 = 0 ∧
      Agent.main_with compile true m = Agent.main_with libCompile true m) ∧
    (∀ e, compile Agent.agentWorkflow = .error e →
      Agent.main_with compile false m =
        ([OutEvent.log ⟨LogLevel.error, "Failed to create workflow: " ++ excStr e⟩,
          OutEvent.log ⟨LogLevel.error,
            "Failed to run agent: " ++ ("Workflow creation failed: " ++ excStr e)⟩], 1)) ∧
    (∀ g err, compile Agent.agentWorkflow = .ok g →
      (invoke g ⟨some (PyVal.str m)⟩).result = .error err →
      (Agent.main_with compile false m).2 = 1 ∧
      ∃ pre, (Agent.main_with compile false m).1 =
        pre ++ [OutEvent.log ⟨LogLevel.error, "Failed to run agent: " ++ excStr err.exc⟩]) := by
  refine ⟨rfl, ⟨rfl, rfl⟩, ?_, ?_⟩
  · intro e he
    have hc : Agent.create_workflow_with compile =
        ⟨[⟨LogLevel.error, "Failed to create workflow: " ++ excStr e⟩],
         .error ⟨Exc.runtimeError ("Workflow creation failed: " ++ excStr e), some e⟩⟩ := by
      unfold Agent.create_workflow_with
      rw [he]
    have hrun : Agent.run_agent_with compile false m =
        ⟨[⟨LogLevel.error, "Failed to create workflow: " ++ excStr e⟩],
         .error ⟨Exc.runtimeError ("Workflow creation failed: " ++ excStr e), some e⟩⟩ := by
      unfold Agent.run_agent_with
      rw [hc]
      rfl
    unfold Agent.main_with
    rw [hrun]
    rfl
  · intro g err hg hi
    rcases hR : invoke g ⟨some (PyVal.str m)⟩ with ⟨rl, rr⟩
    rw [hR] at hi
    have hrr : rr = .error err := hi
    subst hrr
    have hc : Agent.create_workflow_with compile = ⟨[], .ok g⟩ := by
      unfold Agent.create_workflow_with
      rw [hg]
    have hrun : Agent.run_agent_with compile false m =
        ⟨[] ++ (invoke g ⟨some (PyVal.str m)⟩).logs,
         (invoke g ⟨some (PyVal.str m)⟩).result⟩ := by
      unfold Agent.run_agent_with
      rw [hc]
      rfl
    rw [hR] at hrun
    have hmain : Agent.main_with compile false m =
        (([] ++ rl).map OutEvent.log ++
           [OutEvent.log ⟨LogLevel.error, "Failed to run agent: " ++ excStr err.exc⟩], 1) := by
      unfold Agent.main_with
      rw [hrun]
    rw [hmain]
    exact ⟨rfl, ([] ++ rl).map OutEvent.log, rfl⟩

/-- Concrete instance of `main_exit_codes` with a compile step that always
fails: the CLI logs both error lines and exits with status 1. -/
theorem main_exit_codes_witness :
    alwaysFailCompile Agent.agentWorkflow =
      .error (Exc.valueError "internal library failure") ∧
    Agent.main_with alwaysFailCompile false "A" =
      ([OutEvent.log ⟨LogLevel.error,
          "Failed to create workflow: " ++ excStr (Exc.valueError "internal library failure")⟩,
        OutEvent.log ⟨LogLevel.error,
          "Failed to run agent: " ++
            ("Workflow creation failed: " ++ excStr (Exc.valueError "internal library failure"))⟩], 1) :=
  ⟨rfl, (main_exit_codes alwaysFailCompile "A").2.2.1 _ rfl⟩
